import Mathlib

/-!
Verification development for the my-journal-frontend asynchronous coordination
layer: the JWT request gateway with coordinated token refresh, the debounced
autosave hook, and the debounced search hook with stale-response suppression.

Each definition is a shallow embedding of a function of the source; network
I/O is modelled by explicit oracles (functions from fetch index to response)
and the single-threaded cooperative scheduling of the browser is modelled by
step functions over explicit state records, driven by event traces.
-/

namespace MyJournal

/-! ## API client with JWT authentication (the request gateway)

Embeds the module holding `tokenManager`, `refreshAccessToken`,
`coordinatedRefresh` and `apiRequest`.  The two module-level token variables
become a `Tokens` record threaded through the functions.  JavaScript string
truthiness (`null` and `""` are falsy) is modelled by `truthy`. -/

/-- The pair of module-level token variables (`accessToken`, `refreshToken`);
`none` models JavaScript `null`. -/
structure Tokens where
  access : Option String
  refresh : Option String
deriving DecidableEq, Repr

/-- JavaScript truthiness of a nullable token string: `null` and the empty
string are falsy. -/
def truthy : Option String → Bool
  | none => false
  | some s => s != ""

/-- Function `tokenManager.clearTokens`: both variables become `null` (the
`localStorage` removal is not modelled). -/
def clearTokens (_st : Tokens) : Tokens := ⟨none, none⟩

/-- Function `tokenManager.setTokens`: both variables are replaced (the `localStorage`
persistence of the refresh token is not modelled). -/
def setTokens (a r : String) (_st : Tokens) : Tokens := ⟨some a, some r⟩

/-- The normalized error shape thrown by the gateway (`ApiException`); the
optional per-field error map does not affect control flow and is omitted. -/
structure ApiException where
  status : Nat
  message : String
deriving DecidableEq, Repr

/-- An HTTP response as the gateway observes it: the status code, the parsed
body on success, and the optional `message` field of an error body. -/
structure Response where
  status : Nat
  message : Option String
  body : String
deriving DecidableEq, Repr

/-- Predicate `response.ok` of the fetch API: status in the 2xx range. -/
def responseOk (status : Nat) : Bool := 200 ≤ status && status < 300

/-- The message of the explicit session-expired throw in `apiRequest`. -/
def sessionExpiredMessage : String := "Session expired. Please login again."

/-- The fallback error message `Request failed with status N`. -/
def failMessage (status : Nat) : String :=
  "Request failed with status " ++ toString status

/-- The refresh oracle: the server's answer to `POST /auth/refresh`.
`some (a, r)` is a 2xx response carrying the new token pair; `none` covers
both a non-2xx response and a network failure, which the source treats
identically (`clearTokens` and return `false`). -/
def RefreshAnswer : Type := Option (String × String)

/-- Function `refreshAccessToken`: returns `false` without calling the endpoint when
the refresh token is falsy; otherwise calls the endpoint, installing the new
pair on success and clearing both tokens on any failure.  The returned `Nat`
counts invocations of the renewal endpoint. -/
def refreshAccessToken (ans : RefreshAnswer) (st : Tokens) : Bool × Tokens × Nat :=
  if truthy st.refresh then
    match ans with
    | some (a, r) => (true, setTokens a r st, 1)
    | none => (false, clearTokens st, 1)
  else
    (false, st, 0)

instance {ε α : Type} [DecidableEq ε] [DecidableEq α] : DecidableEq (Except ε α) :=
  fun x y =>
  match x, y with
  | .ok a, .ok b =>
    if h : a = b then isTrue (by rw [h]) else isFalse (by intro hc; cases hc; exact h rfl)
  | .error a, .error b =>
    if h : a = b then isTrue (by rw [h]) else isFalse (by intro hc; cases hc; exact h rfl)
  | .ok _, .error _ => isFalse (by intro hc; cases hc)
  | .error _, .ok _ => isFalse (by intro hc; cases hc)

/-- The observable outcome of one `apiRequest` invocation: the returned value
or thrown exception, the final token state, and how many endpoint fetches and
refresh-endpoint calls were made. -/
structure CallOutcome where
  result : Except ApiException String
  tokens : Tokens
  fetchCount : Nat
  refreshCount : Nat
deriving DecidableEq, Repr

/-- The tail of `apiRequest` after the 401-refresh branch: parse the body and
either return it (2xx) or throw the normalized error. -/
def handleResponse (response : Response) (st : Tokens) : CallOutcome :=
  if responseOk response.status then
    { result := .ok response.body, tokens := st, fetchCount := 1, refreshCount := 0 }
  else
    { result := .error ⟨response.status, response.message.getD (failMessage response.status)⟩,
      tokens := st, fetchCount := 1, refreshCount := 0 }

/-- Function `apiRequest`, with fetch I/O as an oracle `env : Nat → Response` indexed
by the fetch number `k` (the Authorization header derived from the access
token does not influence control flow and is absorbed into the oracle).  The
source function recurses on itself passing `retry = false`; the `fuel`
argument is only the structural-recursion device for that self-call and is
fixed to `2` in `apiRequest` below, which the retry flag never lets the
computation exhaust.  Within one sequential call `coordinatedRefresh` finds
no refresh in flight, so it reduces to `refreshAccessToken`
(its single-flight behaviour under concurrency is modelled separately by
`coordinatedRefreshEnter`). -/
def apiRequestFuel (env : Nat → Response) (ans : RefreshAnswer) :
    Nat → Nat → Tokens → Bool → CallOutcome
  | 0, k, st, _ => handleResponse (env k) st
  | fuel + 1, k, st, retry =>
    let response := env k
    if response.status == 401 && retry && truthy st.refresh then
      match refreshAccessToken ans st with
      | (true, st1, _) =>
        let o := apiRequestFuel env ans fuel (k + 1) st1 false
        { o with fetchCount := o.fetchCount + 1, refreshCount := o.refreshCount + 1 }
      | (false, st1, _) =>
        { result := .error ⟨401, sessionExpiredMessage⟩, tokens := clearTokens st1,
          fetchCount := 1, refreshCount := 1 }
    else
      handleResponse response st

/-- The entry point `apiRequest endpoint options retry` with the I/O oracles made explicit. -/
def apiRequest (env : Nat → Response) (ans : RefreshAnswer)
    (k : Nat) (st : Tokens) (retry : Bool) : CallOutcome :=
  apiRequestFuel env ans 2 k st retry

/-! ## Single-flight coordination of `coordinatedRefresh`

The module-level variables `isRefreshing` and `refreshPromise`, together with
JavaScript run-to-completion scheduling: the body of `coordinatedRefresh` up
to and including the assignment of `refreshPromise` runs without suspension,
so one caller's check-and-set is atomic with respect to other callers.
Promises are named by increasing identifiers. -/

/-- The refresh-coordination state: the two module variables, a counter
handing out promise identities, and a count of renewal requests started. -/
structure RefreshState where
  isRefreshing : Bool
  refreshPromise : Option Nat
  nextPromiseId : Nat
  startedRefreshes : Nat
deriving DecidableEq, Repr

/-- One caller entering `coordinatedRefresh`: if a refresh is already in
flight the existing shared promise is returned unchanged; otherwise a new
refresh is started and its promise recorded.  Returns the promise the caller
awaits. -/
def coordinatedRefreshEnter (s : RefreshState) : Nat × RefreshState :=
  if s.isRefreshing && s.refreshPromise.isSome then
    (s.refreshPromise.getD 0, s)
  else
    (s.nextPromiseId,
     { isRefreshing := true, refreshPromise := some s.nextPromiseId,
       nextPromiseId := s.nextPromiseId + 1, startedRefreshes := s.startedRefreshes + 1 })

/-- The `finally` callback of the refresh promise: the in-flight markers are
cleared when the renewal settles. -/
def refreshSettle (s : RefreshState) : RefreshState :=
  { s with isRefreshing := false, refreshPromise := none }

/-- Running `n` callers entering `coordinatedRefresh` consecutively, i.e. all while
any refresh started among them is still in flight; returns the promises the
callers await and the final state. -/
def runEnters : Nat → RefreshState → List Nat × RefreshState
  | 0, s => ([], s)
  | n + 1, s =>
    let (p, s1) := coordinatedRefreshEnter s
    let (ps, s2) := runEnters n s1
    (p :: ps, s2)

/-! ## The `useSearch` hook (SearchCoordinator)

Embeds the state of the hook (its `useState` fields plus the refs
`debounceTimerRef`, `requestIdRef`) and its operations as a step function over
events.  Two facts of the source shape the model: the `AbortController` held
in `abortControllerRef` is created and aborted but its signal is never passed
to `searchApi.search`, so no fetch of this hook can reject with an
`AbortError` and the `err.name === 'AbortError'` branches are unreachable;
and `clearSearch` touches neither `abortControllerRef` nor `requestIdRef`.
A request starts when the hook issues it (incrementing `requestIdRef`) and
its completion is a separate event carrying the identifier captured at start,
so arbitrary arrival orders are exactly the event interleavings. -/

/-- The `SearchState` union of the source: the status of one pipeline. -/
inductive SearchState where
  | idle
  | loading
  | success
  | error
deriving DecidableEq, Repr

/-- A search result row (`SearchResult` of the source); the numeric search
score is irrelevant to coordination and modelled as an integer. -/
structure SearchResult where
  id : Nat
  title : String
  content : String
  searchScore : Int
  searchSnippet : String
deriving DecidableEq, Repr

/-- The state of one `useSearch` instance: every `useState` field plus the
`debounceTimerRef` (as the query captured by the pending timer callback) and
`requestIdRef`. -/
structure SearchSession where
  query : String
  suggestions : List SearchResult
  suggestionsState : SearchState
  showSuggestions : Bool
  results : List SearchResult
  resultsState : SearchState
  totalResults : Nat
  error : Option String
  pendingDebounce : Option String
  requestId : Nat
deriving DecidableEq, Repr

/-- The default `minQueryLength` of the hook. -/
def minQueryLength : Nat := 2

/-- The events driving one search session.  Completion events carry the
request identifier captured when the request was issued; `ok` carries the
response `entries` (and for a submission also `total`), `err` the failure
message. -/
inductive SEvent where
  | setQuery (q : String)
  | debounceElapse
  | suggestOk (tag : Nat) (entries : List SearchResult)
  | suggestErr (tag : Nat) (msg : String)
  | submit
  | submitOk (tag : Nat) (entries : List SearchResult) (total : Nat)
  | submitErr (tag : Nat) (msg : String)
  | clear
  | closeSuggestions
deriving DecidableEq, Repr

/-- The synchronous prefix of `fetchSuggestions`: pre-increment the request
identifier (the new value tags this request), abort the stale controller (no
transport effect, see above), and enter `loading`. -/
def fetchSuggestionsStart (s : SearchSession) : SearchSession :=
  { s with requestId := s.requestId + 1, suggestionsState := .loading, error := none }

/-- One step of the search session. -/
def sstep (e : SEvent) (s : SearchSession) : SearchSession :=
  match e with
  | .setQuery q =>
    let s1 := { s with query := q, pendingDebounce := none }
    if q.length < minQueryLength then
      { s1 with suggestions := [], suggestionsState := .idle, showSuggestions := false }
    else
      { s1 with pendingDebounce := some q }
  | .debounceElapse =>
    match s.pendingDebounce with
    | some _ => fetchSuggestionsStart { s with pendingDebounce := none }
    | none => s
  | .suggestOk tag entries =>
    if tag == s.requestId then
      { s with suggestions := entries, suggestionsState := .success, showSuggestions := true }
    else s
  | .suggestErr tag msg =>
    if tag == s.requestId then
      { s with suggestionsState := .error, error := some msg }
    else s
  | .submit =>
    let s1 := { s with pendingDebounce := none, showSuggestions := false }
    if s1.query.length < minQueryLength then s1
    else
      { s1 with requestId := s1.requestId + 1, resultsState := .loading, error := none }
  | .submitOk tag entries total =>
    if tag == s.requestId then
      { s with results := entries, totalResults := total, resultsState := .success }
    else s
  | .submitErr tag msg =>
    if tag == s.requestId then
      { s with resultsState := .error, error := some msg }
    else s
  | .clear =>
    { s with pendingDebounce := none, query := "", suggestions := [],
             suggestionsState := .idle, showSuggestions := false, results := [],
             resultsState := .idle, totalResults := 0, error := none }
  | .closeSuggestions => { s with showSuggestions := false }

/-- A search session as mounted: all fields at their `useState` initial
values. -/
def initialSearch : SearchSession :=
  { query := "", suggestions := [], suggestionsState := .idle, showSuggestions := false,
    results := [], resultsState := .idle, totalResults := 0, error := none,
    pendingDebounce := none, requestId := 0 }

/-- Run a list of events left to right. -/
def runSearch : List SEvent → SearchSession → SearchSession
  | [], s => s
  | e :: es, s => runSearch es (sstep e s)

/-! ## The `useAutosave` hook (AutosaveCoordinator)

Embeds the hook's state (`saveStatus` plus the refs `lastSavedRef`,
`timeoutRef`, `pendingSaveRef`, `currentIdRef`, `isSavingRef`), its props
(`id`, `title`, `content`, `status`, `enabled`, `isInitialized`), and its
operations (`performSave`, `saveNow`, the effects) as a step function over
events.

Modelling of React effects: each effect re-runs whenever the hook re-renders
with changed dependencies.  The dependency arrays of the source include the
`performSave` callback, whose identity changes whenever the underlying
mutation objects change state, i.e. on essentially every render; the model
therefore re-runs the effect bodies (each idempotent) after every event.
The debounce effect's cleanup (`clearPendingTimeout`) runs before its body.

Network completion of an in-flight save is a separate `complete` event; the
`setTimeout(…, 100)` follow-up scheduled in the `finally` block is the
`followUpFire` event.  `calls` logs every save request issued, so theorems
about creation and update calls read off this log. -/

/-- The `EntryStatus` union of the source. -/
inductive EntryStatus where
  | draft
  | published
deriving DecidableEq, Repr

/-- The `SaveStatus` union of the source. -/
inductive SaveStatus where
  | idle
  | unsaved
  | saving
  | saved
  | error
deriving DecidableEq, Repr

/-- A `{title, content}` snapshot. -/
structure Snapshot where
  title : String
  content : String
deriving DecidableEq, Repr

/-- A save request as issued by `performSave`: `saveDraft` without an id
(creation), `saveDraft` with an id, or `updateEntry`. -/
inductive SaveCall where
  | createDraft (title content : String)
  | updateDraft (id : Nat) (title content : String)
  | updateEntry (id : Nat) (title content : String)
deriving DecidableEq, Repr

/-- Whether a save call is a creation (`saveDraft` with no id). -/
def SaveCall.isCreate : SaveCall → Bool
  | .createDraft _ _ => true
  | _ => false

/-- The id a save call addresses, if any. -/
def SaveCall.target : SaveCall → Option Nat
  | .createDraft _ _ => none
  | .updateDraft i _ _ => some i
  | .updateEntry i _ _ => some i

/-- The title a save call carries. -/
def SaveCall.callTitle : SaveCall → String
  | .createDraft t _ => t
  | .updateDraft _ t _ => t
  | .updateEntry _ t _ => t

/-- The content a save call carries. -/
def SaveCall.callContent : SaveCall → String
  | .createDraft _ c => c
  | .updateDraft _ _ c => c
  | .updateEntry _ _ c => c

/-- The full state of one `useAutosave` instance together with its current
props and the bookkeeping needed to observe it: the in-flight call, the
scheduled follow-up save, and the log of issued calls. -/
structure AutosaveState where
  title : String
  content : String
  status : EntryStatus
  enabled : Bool
  isInitialized : Bool
  saveStatus : SaveStatus
  lastSaved : Option Snapshot
  pendingSave : Option Snapshot
  currentId : Option Nat
  isSaving : Bool
  timerPending : Bool
  inFlight : Option SaveCall
  followUp : Option Snapshot
  calls : List SaveCall
deriving DecidableEq, Repr

/-- Derived flag `isDirty`: the last-saved snapshot exists and the current title or
content differs from it. -/
def isDirty (s : AutosaveState) : Bool :=
  match s.lastSaved with
  | none => false
  | some snap => s.title != snap.title || s.content != snap.content

/-- Which call `performSave` issues, from the entry status and
`currentIdRef` at call time: drafts go to `saveDraft` (id absent means
creation), published entries go to `updateEntry` when an id exists and make
no network call otherwise. -/
def saveCallFor (status : EntryStatus) (cid : Option Nat) (t c : String) : Option SaveCall :=
  match status, cid with
  | .draft, none => some (.createDraft t c)
  | .draft, some i => some (.updateDraft i t c)
  | .published, some i => some (.updateEntry i t c)
  | .published, none => none

/-- The `finally` block of `performSave`: release the lock, and if a pending
save was buffered whose values differ from the just-persisted snapshot,
clear it and schedule the follow-up save. -/
def finallyStep (s : AutosaveState) : AutosaveState :=
  match s.pendingSave with
  | none => { s with isSaving := false, inFlight := none }
  | some p =>
    if (match s.lastSaved with
        | none => true
        | some l => p.title != l.title || p.content != l.content) then
      { s with isSaving := false, inFlight := none, pendingSave := none, followUp := some p }
    else { s with isSaving := false, inFlight := none }

/-- Function `performSave(saveTitle, saveContent)` up to its first suspension: when
the lock is held the values are buffered into `pendingSaveRef`; otherwise the
lock is taken, the status becomes `saving` and the save call is issued.  A
published entry without an id makes no network call, so its try block and
`finally` complete synchronously. -/
def performSave (t c : String) (s : AutosaveState) : AutosaveState :=
  if s.isSaving then { s with pendingSave := some ⟨t, c⟩ }
  else
    match saveCallFor s.status s.currentId t c with
    | some call =>
      { s with isSaving := true, saveStatus := .saving, inFlight := some call,
               calls := s.calls ++ [call] }
    | none =>
      -- the transient `saving` status is immediately overwritten by `saved`
      finallyStep { s with isSaving := true, saveStatus := .saved,
                           lastSaved := some ⟨t, c⟩ }

/-- Completion of the in-flight save call.  On success a creation whose
response carries a truthy id adopts it into `currentIdRef`, the snapshot is
updated to the saved values and the status becomes `saved`; on failure the
status becomes `error` (no save of this hook can fail with `AbortError`: no
abort signal is attached to these requests).  Either way the `finally` block
runs. -/
def completeSave (ok : Bool) (rid : Nat) (s : AutosaveState) : AutosaveState :=
  match s.inFlight with
  | none => s
  | some call =>
    if ok then
      match call with
      | .createDraft t c =>
        if rid != 0 then
          finallyStep { s with currentId := some rid, lastSaved := some ⟨t, c⟩,
                               saveStatus := .saved }
        else
          finallyStep { s with lastSaved := some ⟨t, c⟩, saveStatus := .saved }
      | .updateDraft _ t c =>
        finallyStep { s with lastSaved := some ⟨t, c⟩, saveStatus := .saved }
      | .updateEntry _ t c =>
        finallyStep { s with lastSaved := some ⟨t, c⟩, saveStatus := .saved }
    else
      finallyStep { s with saveStatus := .error }

/-- Function `clearPendingTimeout`: cancel the pending debounce timer. -/
def clearPendingTimeout (s : AutosaveState) : AutosaveState :=
  { s with timerPending := false }

/-- Function `saveNow`: cancel the pending debounce timer and, if dirty, save the
current values immediately (clearing the timer does not change dirtiness). -/
def saveNow (s : AutosaveState) : AutosaveState :=
  if isDirty s then performSave s.title s.content (clearPendingTimeout s)
  else clearPendingTimeout s

/-- The first effect body: initialize `lastSavedRef` from the current
`{title, content}` once the initial data is loaded, only while it is still
unset. -/
def effectInitSnapshot (s : AutosaveState) : AutosaveState :=
  if s.isInitialized then
    match s.lastSaved with
    | none => { s with lastSaved := some ⟨s.title, s.content⟩ }
    | some _ => s
  else s

/-- The second effect body: published entries track `unsaved` status without
autosaving (the `idle` reset only fires from `unsaved`). -/
def effectPublishedStatus (s : AutosaveState) : AutosaveState :=
  if s.isInitialized && s.status == .published then
    if isDirty s then { s with saveStatus := .unsaved }
    else if s.saveStatus == .unsaved then { s with saveStatus := .idle }
    else s
  else s

/-- The body of the debounced-autosave effect: unless disabled,
uninitialized, published or clean, mark `unsaved`, buffer the current values
into `pendingSaveRef` and arm a new timer. -/
def debounceBody (s3 : AutosaveState) : AutosaveState :=
  if !s3.enabled || !s3.isInitialized then s3
  else if s3.status == .published then s3
  else if !(isDirty s3) then s3
  else { s3 with saveStatus := .unsaved, pendingSave := some ⟨s3.title, s3.content⟩,
                 timerPending := true }

/-- The debounced-autosave effect: its cleanup clears the previous timer,
then the body runs. -/
def effectDebounce (s : AutosaveState) : AutosaveState :=
  debounceBody { s with timerPending := false }

/-- The three effect bodies of the hook, in declaration order. -/
def runEffects (s : AutosaveState) : AutosaveState :=
  effectDebounce (effectPublishedStatus (effectInitSnapshot s))

/-- The events driving one editor session: prop changes (edits, a status
change, the initial load), the debounce timer elapsing, an explicit save,
completion of the in-flight save call (`ok` and the id of the returned
draft, `0` when absent), and the scheduled follow-up save firing. -/
inductive AEvent where
  | edit (title content : String)
  | setStatus (st : EntryStatus)
  | load
  | timerFire
  | save
  | complete (ok : Bool) (rid : Nat)
  | followUpFire
deriving DecidableEq, Repr

/-- The event handler, before effects re-run.  The debounce timer callback
reads `pendingSaveRef` at fire time. -/
def handle : AEvent → AutosaveState → AutosaveState
  | .edit t c, s => { s with title := t, content := c }
  | .setStatus st, s => { s with status := st }
  | .load, s => { s with isInitialized := true }
  | .timerFire, s =>
    if s.timerPending then
      match s.pendingSave with
      | some p => performSave p.title p.content (clearPendingTimeout s)
      | none => clearPendingTimeout s
    else s
  | .save, s => saveNow s
  | .complete ok rid, s => completeSave ok rid s
  | .followUpFire, s =>
    match s.followUp with
    | some p => performSave p.title p.content { s with followUp := none }
    | none => s

/-- One step: handle the event, then re-run the effects. -/
def astep (e : AEvent) (s : AutosaveState) : AutosaveState := runEffects (handle e s)

/-- Run a list of events left to right. -/
def runAutosave : List AEvent → AutosaveState → AutosaveState
  | [], s => s
  | e :: es, s => runAutosave es (astep e s)

/-- The hook as mounted, before the initial data has loaded: status `idle`,
all refs at their initial values, no call issued yet. -/
def initAutosave (t c : String) (st : EntryStatus) (cid : Option Nat) (en : Bool) :
    AutosaveState :=
  { title := t, content := c, status := st, enabled := en, isInitialized := false,
    saveStatus := .idle, lastSaved := none, pendingSave := none, currentId := cid,
    isSaving := false, timerPending := false, inFlight := none, followUp := none,
    calls := [] }

/-- A state an editor session can actually be in: reached from some mount by
some event trace. -/
def ReachableAutosave (s : AutosaveState) : Prop :=
  ∃ t c st cid en tr, s = runAutosave tr (initAutosave t c st cid en)

/-- The number of creation calls issued so far. -/
def createCount (s : AutosaveState) : Nat :=
  (s.calls.filter SaveCall.isCreate).length

/-- An event whose save completions (if any) are successes carrying a
server-assigned (truthy) draft id, per the HTTP contract for `saveDraft`. -/
def goodEvent : AEvent → Bool
  | .complete ok rid => ok && rid != 0
  | _ => true

/-- Whether an event is the initial-data load. -/
def isLoad : AEvent → Bool
  | .load => true
  | _ => false

/-- The lock discipline of `performSave`: `isSavingRef` is held exactly while
a call is in flight, and a creation call can only be in flight while
`currentIdRef` is still absent. -/
def SaveInv (s : AutosaveState) : Prop :=
  s.isSaving = s.inFlight.isSome ∧
  (∀ t c, s.inFlight = some (.createDraft t c) → s.currentId = none)

/-- At most one creation call has been issued, and if one has been, either
its id has been adopted or it is still in flight. -/
def CreateInv (s : AutosaveState) : Prop :=
  createCount s ≤ 1 ∧
  (createCount s = 1 →
    s.currentId.isSome = true ∨ ∃ t c, s.inFlight = some (.createDraft t c))

/-! ## Theorems: the request gateway -/

/-- When a refresh is in flight, every entering caller receives the existing
shared promise and the state is untouched. -/
theorem runEnters_inFlight (n : Nat) (s : RefreshState)
    (h : (s.isRefreshing && s.refreshPromise.isSome) = true) :
    runEnters n s = (List.replicate n (s.refreshPromise.getD 0), s) := by
  induction n with
  | zero => simp [runEnters]
  | succ n ih => simp [runEnters, coordinatedRefreshEnter, h, ih, List.replicate]

/-- C1: single-flight refresh.  For any refresh-coordination state and any
number `N ≥ 1` of callers that enter `coordinatedRefresh` while any refresh
started among them is still in flight, all `N` callers receive one and the
same outcome promise, at most one renewal request is started across the `N`
entries, and exactly one is started when no refresh was already in flight. -/
theorem single_flight_refresh (s : RefreshState) (N : Nat) (hN : 1 ≤ N) :
    (∃ p, (runEnters N s).1 = List.replicate N p) ∧
    (runEnters N s).2.startedRefreshes ≤ s.startedRefreshes + 1 ∧
    ((s.isRefreshing && s.refreshPromise.isSome) = false →
      (runEnters N s).2.startedRefreshes = s.startedRefreshes + 1) := by
  cases hb : (s.isRefreshing && s.refreshPromise.isSome) with
  | true =>
    rw [runEnters_inFlight N s hb]
    exact ⟨⟨_, rfl⟩, Nat.le_succ _, fun hc => absurd hc (by decide)⟩
  | false =>
    obtain ⟨M, rfl⟩ : ∃ M, N = M + 1 := ⟨N - 1, (Nat.succ_pred_eq_of_pos hN).symm⟩
    have henter : coordinatedRefreshEnter s =
        (s.nextPromiseId,
         { isRefreshing := true, refreshPromise := some s.nextPromiseId,
           nextPromiseId := s.nextPromiseId + 1,
           startedRefreshes := s.startedRefreshes + 1 }) := by
      simp [coordinatedRefreshEnter, hb]
    have hrest := runEnters_inFlight M
      { isRefreshing := true, refreshPromise := some s.nextPromiseId,
        nextPromiseId := s.nextPromiseId + 1,
        startedRefreshes := s.startedRefreshes + 1 } (by simp)
    refine ⟨⟨s.nextPromiseId, ?_⟩, ?_, fun _ => ?_⟩ <;>
      simp [runEnters, henter, hrest, List.replicate]

/-- C1 witness: three concurrent callers from the idle coordination state
share one promise and start exactly one renewal request. -/
theorem single_flight_refresh_witness :
    1 ≤ 3 ∧
    ((∃ p, (runEnters 3 (⟨false, none, 0, 0⟩ : RefreshState)).1 = List.replicate 3 p) ∧
     (runEnters 3 (⟨false, none, 0, 0⟩ : RefreshState)).2.startedRefreshes ≤ 0 + 1 ∧
     (((⟨false, none, 0, 0⟩ : RefreshState).isRefreshing &&
        (⟨false, none, 0, 0⟩ : RefreshState).refreshPromise.isSome) = false →
       (runEnters 3 (⟨false, none, 0, 0⟩ : RefreshState)).2.startedRefreshes = 0 + 1)) :=
  ⟨by decide, single_flight_refresh ⟨false, none, 0, 0⟩ 3 (by decide)⟩

/-- With the retry flag off, `apiRequest` never enters the refresh branch:
it is exactly one fetch followed by response handling. -/
theorem apiRequestFuel_false (env : Nat → Response) (ans : RefreshAnswer)
    (fuel k : Nat) (st : Tokens) :
    apiRequestFuel env ans fuel k st false = handleResponse (env k) st := by
  cases fuel with
  | zero => rfl
  | succ n => simp [apiRequestFuel]

/-- Lemma: `handleResponse` performs exactly the one fetch that produced its
response and never calls the renewal endpoint. -/
theorem handleResponse_counts (r : Response) (st : Tokens) :
    (handleResponse r st).fetchCount = 1 ∧ (handleResponse r st).refreshCount = 0 := by
  unfold handleResponse; split <;> simp

/-- C9: bounded retry recursion.  Every `apiRequest` invocation, with any
oracle, token state and retry flag, performs at most two endpoint fetches
and at most one refresh attempt: the single retry is issued with the retry
flag off, which makes the refresh branch unreachable in the recursive call. -/
theorem apiRequest_bounded (env : Nat → Response) (ans : RefreshAnswer)
    (k : Nat) (st : Tokens) (retry : Bool) :
    (apiRequest env ans k st retry).fetchCount ≤ 2 ∧
    (apiRequest env ans k st retry).refreshCount ≤ 1 := by
  unfold apiRequest apiRequestFuel
  rcases hra : refreshAccessToken ans st with ⟨ok, st1, m⟩
  simp only [hra]
  split
  · cases ok with
    | true =>
      obtain ⟨hf, hc⟩ := handleResponse_counts (env (k + 1)) st1
      simp [apiRequestFuel_false, hf, hc]
    | false => simp
  · obtain ⟨hf, hc⟩ := handleResponse_counts (env k) st
    simp [hf, hc]

/-- C3 counterexample: with valid tokens, a 401, a successful refresh and a
second 401 on the retry, the call does not fail with the session-expired
exception: it propagates the server's own 401 error and the refreshed tokens
are retained rather than cleared. -/
theorem retry_after_refresh_not_session_expired :
    (apiRequest (fun _ => ⟨401, some "Unauthorized", ""⟩) (some ("A2", "R2")) 0
        ⟨some "A1", some "R1"⟩ true).result ≠ .error ⟨401, sessionExpiredMessage⟩ ∧
    (apiRequest (fun _ => ⟨401, some "Unauthorized", ""⟩) (some ("A2", "R2")) 0
        ⟨some "A1", some "R1"⟩ true).result = .error ⟨401, "Unauthorized"⟩ ∧
    (apiRequest (fun _ => ⟨401, some "Unauthorized", ""⟩) (some ("A2", "R2")) 0
        ⟨some "A1", some "R1"⟩ true).tokens = ⟨some "A2", some "R2"⟩ := by
  refine ⟨?_, rfl, rfl⟩
  intro h
  have : "Unauthorized" = sessionExpiredMessage := by
    have h2 := congrArg (fun r => match r with
      | Except.error e => e.message
      | Except.ok v => v) h
    simpa using h2
  simp [sessionExpiredMessage] at this

/-- C3 amended: retry-once bound.  If a call with a truthy refresh token gets
a 401, the refresh succeeds, and the retried call gets a 401 again, the call
fails with the retried response's own 401 error (not the explicit
session-expired exception, and without clearing the freshly refreshed
tokens), having made exactly two fetches and exactly one refresh attempt. -/
theorem retry_once_bound (env : Nat → Response) (a r : String) (ans : RefreshAnswer)
    (k : Nat) (st : Tokens) (h1 : (env k).status = 401) (h2 : (env (k + 1)).status = 401)
    (hr : truthy st.refresh = true) (hans : ans = some (a, r)) :
    apiRequest env ans k st true =
      { result := .error ⟨401, (env (k + 1)).message.getD (failMessage 401)⟩,
        tokens := setTokens a r st, fetchCount := 2, refreshCount := 1 } := by
  subst hans
  unfold apiRequest apiRequestFuel
  rw [if_pos (by simp [h1, hr])]
  have hra : refreshAccessToken (some (a, r)) st = (true, setTokens a r st, 1) := by
    simp [refreshAccessToken, hr]
  rw [hra]
  simp only [apiRequestFuel_false]
  unfold handleResponse
  rw [if_neg (by simp [h2, responseOk])]
  simp [h2]

/-- C3 witness: the amended retry-once bound at the counterexample input. -/
theorem retry_once_bound_witness :
    ((fun _ => ⟨401, some "Unauthorized", ""⟩ : Nat → Response) 0).status = 401 ∧
    ((fun _ => ⟨401, some "Unauthorized", ""⟩ : Nat → Response) 1).status = 401 ∧
    truthy (⟨some "A1", some "R1"⟩ : Tokens).refresh = true ∧
    apiRequest (fun _ => ⟨401, some "Unauthorized", ""⟩) (some ("A2", "R2")) 0
        ⟨some "A1", some "R1"⟩ true =
      { result := .error ⟨401, ((fun _ => ⟨401, some "Unauthorized", ""⟩ : Nat → Response)
            1).message.getD (failMessage 401)⟩,
        tokens := setTokens "A2" "R2" ⟨some "A1", some "R1"⟩,
        fetchCount := 2, refreshCount := 1 } :=
  ⟨rfl, rfl, rfl,
   retry_once_bound (fun _ => ⟨401, some "Unauthorized", ""⟩) "A2" "R2"
     (some ("A2", "R2")) 0 ⟨some "A1", some "R1"⟩ rfl rfl rfl rfl⟩

/-- C7 counterexample: a 401 with no refresh token does not fail with the
session-expired exception: the server's own 401 error is surfaced and the
tokens are left untouched rather than cleared. -/
theorem absent_refresh_not_session_expired :
    (apiRequest (fun _ => ⟨401, some "Unauthorized", ""⟩) none 0
        ⟨some "A1", none⟩ true).result ≠ .error ⟨401, sessionExpiredMessage⟩ ∧
    (apiRequest (fun _ => ⟨401, some "Unauthorized", ""⟩) none 0
        ⟨some "A1", none⟩ true).result = .error ⟨401, "Unauthorized"⟩ ∧
    (apiRequest (fun _ => ⟨401, some "Unauthorized", ""⟩) none 0
        ⟨some "A1", none⟩ true).tokens = ⟨some "A1", none⟩ := by
  refine ⟨?_, rfl, rfl⟩
  intro h
  have : "Unauthorized" = sessionExpiredMessage := by
    have h2 := congrArg (fun r => match r with
      | Except.error e => e.message
      | Except.ok v => v) h
    simpa using h2
  simp [sessionExpiredMessage] at this

/-- C7 amended: absent refresh credential is terminal.  A call whose response
is 401 while the refresh token is falsy fails immediately with that
response's own 401 error (not the explicit session-expired exception), makes
exactly one fetch, never invokes the renewal endpoint, and leaves the tokens
unchanged. -/
theorem absent_refresh_terminal (env : Nat → Response) (ans : RefreshAnswer)
    (k : Nat) (st : Tokens) (retry : Bool)
    (h1 : (env k).status = 401) (hr : truthy st.refresh = false) :
    apiRequest env ans k st retry =
      { result := .error ⟨401, (env k).message.getD (failMessage 401)⟩,
        tokens := st, fetchCount := 1, refreshCount := 0 } := by
  unfold apiRequest apiRequestFuel
  rw [if_neg (by simp [hr])]
  unfold handleResponse
  rw [if_neg (by simp [h1, responseOk])]
  simp [h1]

/-- C7 witness: the amended terminal behaviour at the counterexample input. -/
theorem absent_refresh_terminal_witness :
    ((fun _ => ⟨401, some "Unauthorized", ""⟩ : Nat → Response) 0).status = 401 ∧
    truthy (⟨some "A1", none⟩ : Tokens).refresh = false ∧
    apiRequest (fun _ => ⟨401, some "Unauthorized", ""⟩) none 0 ⟨some "A1", none⟩ true =
      { result := .error ⟨401, ((fun _ => ⟨401, some "Unauthorized", ""⟩ : Nat → Response)
            0).message.getD (failMessage 401)⟩,
        tokens := ⟨some "A1", none⟩, fetchCount := 1, refreshCount := 0 } :=
  ⟨rfl, rfl,
   absent_refresh_terminal (fun _ => ⟨401, some "Unauthorized", ""⟩) none 0
     ⟨some "A1", none⟩ true rfl rfl⟩

/-! ## Theorems: the search coordinator -/

/-- C2: stale-response suppression.  In any search-session state, a
completed suggestion or submission response whose captured identifier is
lower than the session's current highest issued identifier changes nothing
at all — regardless of the interleaving that produced the state — and no
event ever decreases the highest issued identifier, so the identifier a
response is compared against is always the latest issued. -/
theorem stale_response_suppressed (s : SearchSession) (t : Nat) (h : t < s.requestId) :
    (∀ entries, sstep (.suggestOk t entries) s = s) ∧
    (∀ msg, sstep (.suggestErr t msg) s = s) ∧
    (∀ entries total, sstep (.submitOk t entries total) s = s) ∧
    (∀ msg, sstep (.submitErr t msg) s = s) ∧
    (∀ e, s.requestId ≤ (sstep e s).requestId) := by
  have hne : (t == s.requestId) = false := by
    simp only [beq_eq_false_iff_ne, ne_eq]
    exact Nat.ne_of_lt h
  refine ⟨fun _ => by simp [sstep, hne], fun _ => by simp [sstep, hne],
          fun _ _ => by simp [sstep, hne], fun _ => by simp [sstep, hne], ?_⟩
  intro e
  cases e <;> simp [sstep, fetchSuggestionsStart] <;> split <;>
    simp [fetchSuggestionsStart]

/-- C2 witness: in a session whose highest issued identifier is 1, the four
completion events tagged 0 are all inert and no event decreases the
identifier. -/
theorem stale_response_suppressed_witness :
    0 < ({ initialSearch with requestId := 1 } : SearchSession).requestId ∧
    ((∀ entries, sstep (.suggestOk 0 entries) { initialSearch with requestId := 1 } =
        { initialSearch with requestId := 1 }) ∧
     (∀ msg, sstep (.suggestErr 0 msg) { initialSearch with requestId := 1 } =
        { initialSearch with requestId := 1 }) ∧
     (∀ entries total, sstep (.submitOk 0 entries total) { initialSearch with requestId := 1 } =
        { initialSearch with requestId := 1 }) ∧
     (∀ msg, sstep (.submitErr 0 msg) { initialSearch with requestId := 1 } =
        { initialSearch with requestId := 1 }) ∧
     (∀ e, ({ initialSearch with requestId := 1 } : SearchSession).requestId ≤
        (sstep e { initialSearch with requestId := 1 }).requestId)) :=
  ⟨by decide, stale_response_suppressed { initialSearch with requestId := 1 } 0 (by decide)⟩

/-- C6 counterexample: `clearSearch` does not cancel the in-flight
suggestion request.  A suggestion request issued before the clear (and still
in flight at the moment of clearing, bearing identifier 1, which the clear
leaves current) is applied to visible state after the clear: the suggestions
the clear emptied are repopulated and the pipeline reports success. -/
theorem clear_does_not_cancel_inflight :
    (runSearch [.setQuery "ab", .debounceElapse, .clear] initialSearch).suggestions = [] ∧
    (runSearch [.setQuery "ab", .debounceElapse, .clear] initialSearch).requestId = 1 ∧
    (runSearch [.setQuery "ab", .debounceElapse, .clear,
        .suggestOk 1 [⟨1, "t", "c", 0, "s"⟩]] initialSearch).suggestions
      = [⟨1, "t", "c", 0, "s"⟩] ∧
    (runSearch [.setQuery "ab", .debounceElapse, .clear,
        .suggestOk 1 [⟨1, "t", "c", 0, "s"⟩]] initialSearch).suggestionsState
      = .success :=
  ⟨rfl, rfl, rfl, rfl⟩

/-- C6 amended: `clearSearch` resets the query, the suggestions and results
lists, both pipeline states to idle, the total to 0 and the error to absent,
and cancels the pending debounce timer; it does not cancel in-flight
requests nor invalidate their identifiers, so the response of a request in
flight at clear time (whose identifier is still the current one) is applied
to visible state when it completes. -/
theorem clearSearch_resets (s : SearchSession) :
    sstep .clear s =
      { s with pendingDebounce := none, query := "", suggestions := [],
               suggestionsState := .idle, showSuggestions := false, results := [],
               resultsState := .idle, totalResults := 0, error := none } ∧
    (sstep .clear s).requestId = s.requestId ∧
    (∀ entries, (sstep (.suggestOk s.requestId entries) (sstep .clear s)).suggestions
      = entries) := by
  refine ⟨rfl, rfl, fun entries => ?_⟩
  simp [sstep]

/-! ## Theorems: the autosave coordinator -/

/-- The first effect never touches anything but `lastSavedRef`. -/
theorem effectInitSnapshot_fields (s : AutosaveState) :
    (effectInitSnapshot s).calls = s.calls ∧ (effectInitSnapshot s).inFlight = s.inFlight ∧
    (effectInitSnapshot s).isSaving = s.isSaving ∧
    (effectInitSnapshot s).currentId = s.currentId ∧
    (effectInitSnapshot s).status = s.status ∧ (effectInitSnapshot s).enabled = s.enabled ∧
    (effectInitSnapshot s).isInitialized = s.isInitialized ∧
    (effectInitSnapshot s).title = s.title ∧ (effectInitSnapshot s).content = s.content ∧
    (effectInitSnapshot s).followUp = s.followUp ∧
    (effectInitSnapshot s).timerPending = s.timerPending ∧
    (effectInitSnapshot s).pendingSave = s.pendingSave ∧
    (effectInitSnapshot s).saveStatus = s.saveStatus := by
  unfold effectInitSnapshot
  repeat' split
  all_goals simp_all

/-- The second effect never touches anything but `saveStatus`. -/
theorem effectPublishedStatus_fields (s : AutosaveState) :
    (effectPublishedStatus s).calls = s.calls ∧
    (effectPublishedStatus s).inFlight = s.inFlight ∧
    (effectPublishedStatus s).isSaving = s.isSaving ∧
    (effectPublishedStatus s).currentId = s.currentId ∧
    (effectPublishedStatus s).status = s.status ∧
    (effectPublishedStatus s).enabled = s.enabled ∧
    (effectPublishedStatus s).isInitialized = s.isInitialized ∧
    (effectPublishedStatus s).title = s.title ∧
    (effectPublishedStatus s).content = s.content ∧
    (effectPublishedStatus s).followUp = s.followUp ∧
    (effectPublishedStatus s).timerPending = s.timerPending ∧
    (effectPublishedStatus s).pendingSave = s.pendingSave ∧
    (effectPublishedStatus s).lastSaved = s.lastSaved := by
  unfold effectPublishedStatus
  repeat' split
  all_goals simp_all

/-- The debounce effect never touches anything but `saveStatus`,
`pendingSaveRef` and the timer. -/
theorem effectDebounce_fields (s : AutosaveState) :
    (effectDebounce s).calls = s.calls ∧ (effectDebounce s).inFlight = s.inFlight ∧
    (effectDebounce s).isSaving = s.isSaving ∧
    (effectDebounce s).currentId = s.currentId ∧
    (effectDebounce s).status = s.status ∧ (effectDebounce s).enabled = s.enabled ∧
    (effectDebounce s).isInitialized = s.isInitialized ∧
    (effectDebounce s).title = s.title ∧ (effectDebounce s).content = s.content ∧
    (effectDebounce s).followUp = s.followUp ∧
    (effectDebounce s).lastSaved = s.lastSaved := by
  unfold effectDebounce debounceBody
  repeat' split
  all_goals simp_all

/-- The effects never issue or complete save calls, never touch the lock,
the in-flight call, the follow-up, the adopted id, or the props. -/
theorem runEffects_fields (s : AutosaveState) :
    (runEffects s).calls = s.calls ∧ (runEffects s).inFlight = s.inFlight ∧
    (runEffects s).isSaving = s.isSaving ∧ (runEffects s).currentId = s.currentId ∧
    (runEffects s).status = s.status ∧ (runEffects s).enabled = s.enabled ∧
    (runEffects s).isInitialized = s.isInitialized ∧ (runEffects s).title = s.title ∧
    (runEffects s).content = s.content ∧ (runEffects s).followUp = s.followUp := by
  have h1 := effectInitSnapshot_fields s
  have h2 := effectPublishedStatus_fields (effectInitSnapshot s)
  have h3 := effectDebounce_fields (effectPublishedStatus (effectInitSnapshot s))
  unfold runEffects
  simp_all

/-- The effects only write `lastSavedRef` when it is still unset. -/
theorem runEffects_lastSaved_some (s : AutosaveState) (snap : Snapshot)
    (h : s.lastSaved = some snap) : (runEffects s).lastSaved = some snap := by
  have h1 : (effectInitSnapshot s).lastSaved = some snap := by
    unfold effectInitSnapshot
    repeat' split
    all_goals simp_all
  have h2 := effectPublishedStatus_fields (effectInitSnapshot s)
  have h3 := effectDebounce_fields (effectPublishedStatus (effectInitSnapshot s))
  unfold runEffects
  simp_all

/-- The `finally` block never touches the call log, the adopted id, the
snapshot, the props or the status field set by the try block. -/
theorem finallyStep_fields (s : AutosaveState) :
    (finallyStep s).calls = s.calls ∧ (finallyStep s).currentId = s.currentId ∧
    (finallyStep s).isSaving = false ∧ (finallyStep s).inFlight = none ∧
    (finallyStep s).lastSaved = s.lastSaved ∧ (finallyStep s).status = s.status := by
  unfold finallyStep
  repeat' split
  all_goals simp_all

/-- Appending a call to the log adds one creation exactly when the call is a
creation. -/
theorem createFilter_append (l : List SaveCall) (call : SaveCall) :
    ((l ++ [call]).filter SaveCall.isCreate).length =
      (l.filter SaveCall.isCreate).length + (if call.isCreate then 1 else 0) := by
  simp only [List.filter_append, List.length_append]
  split <;> simp_all [List.filter]

/-- Lemma: `performSave` preserves the lock discipline. -/
theorem performSave_SaveInv (t c : String) (s : AutosaveState) (h : SaveInv s) :
    SaveInv (performSave t c s) := by
  obtain ⟨hl, hcr⟩ := h
  unfold performSave
  split
  · exact ⟨hl, hcr⟩
  · rename_i hns
    have hif : s.inFlight = none := by
      cases hx : s.inFlight with
      | none => rfl
      | some v => rw [hx] at hl; simp at hl; simp [hl] at hns
    cases hst : s.status <;> cases hcid : s.currentId <;>
      simp [saveCallFor, SaveInv, finallyStep_fields, hcid]

/-- Lemma: `performSave` preserves the at-most-one-creation invariant. -/
theorem performSave_CreateInv (t c : String) (s : AutosaveState)
    (h : SaveInv s) (h2 : CreateInv s) : CreateInv (performSave t c s) := by
  obtain ⟨hl, hcr⟩ := h
  obtain ⟨hc1, hc2⟩ := h2
  unfold performSave
  split
  · exact ⟨hc1, fun h1 => by
      rcases hc2 h1 with hx | ⟨t', c', hx⟩
      · exact Or.inl hx
      · exact Or.inr ⟨t', c', hx⟩⟩
  · rename_i hns
    have hif : s.inFlight = none := by
      cases hx : s.inFlight with
      | none => rfl
      | some v => rw [hx] at hl; simp at hl; simp [hl] at hns
    cases hst : s.status <;> cases hcid : s.currentId <;>
      simp only [saveCallFor]
    · -- draft without id: a creation call is issued
      have h0 : createCount s = 0 := by
        rcases Nat.le_one_iff_eq_zero_or_eq_one.mp hc1 with h | h
        · exact h
        · exfalso
          rcases hc2 h with hx | ⟨t', c', hx⟩
          · rw [hcid] at hx; simp at hx
          · rw [hif] at hx; simp at hx
      constructor
      · have hstep : (List.filter SaveCall.isCreate
            (s.calls ++ [SaveCall.createDraft t c])).length =
            (List.filter SaveCall.isCreate s.calls).length + 1 := by
          simp [createFilter_append, SaveCall.isCreate]
        simp only [createCount] at h0 ⊢
        simp [hstep, h0, SaveCall.isCreate, List.filter]
      · intro _
        exact Or.inr ⟨t, c, rfl⟩
    · -- draft with id: an update call is issued
      rename_i i
      constructor
      · have hstep : (List.filter SaveCall.isCreate
            (s.calls ++ [SaveCall.updateDraft i t c])).length =
            (List.filter SaveCall.isCreate s.calls).length := by
          simp [createFilter_append, SaveCall.isCreate]
        simp only [createCount] at hc1 ⊢
        simp [hstep]
        exact hc1
      · refine fun _ => Or.inl ?_
        simp [hcid]
    · -- published without id: no call is issued
      refine ⟨by simpa [createCount, finallyStep_fields] using hc1, fun h1 => ?_⟩
      exfalso
      simp only [createCount, finallyStep_fields] at h1
      rcases hc2 (by simpa [createCount] using h1) with hx | ⟨t', c', hx⟩
      · rw [hcid] at hx; simp at hx
      · rw [hif] at hx; simp at hx
    · -- published with id: an update call is issued
      constructor
      · simp [createCount, createFilter_append, SaveCall.isCreate]
        exact hc1
      · refine fun _ => Or.inl ?_
        simp [hcid]

/-- Completion of a save preserves the lock discipline: the lock is released
together with the in-flight record. -/
theorem completeSave_SaveInv (ok : Bool) (rid : Nat) (s : AutosaveState)
    (h : SaveInv s) : SaveInv (completeSave ok rid s) := by
  unfold completeSave
  split
  · exact h
  · split
    · split <;> first
        | (split <;> simp [SaveInv, finallyStep_fields])
        | simp [SaveInv, finallyStep_fields]
    · simp [SaveInv, finallyStep_fields]

/-- Successful completion with a truthy returned id preserves the
at-most-one-creation invariant: a completed creation adopts its id. -/
theorem completeSave_CreateInv (rid : Nat) (s : AutosaveState)
    (h2 : CreateInv s) (hrid : rid ≠ 0) :
    CreateInv (completeSave true rid s) := by
  obtain ⟨hc1, hc2⟩ := h2
  unfold completeSave
  split
  · exact ⟨hc1, hc2⟩
  · rename_i call hf
    split
    · cases call with
      | createDraft t c =>
        have hb : (rid != 0) = true := by simp [hrid]
        simp only [hb, if_true]
        refine ⟨by simpa [createCount, finallyStep_fields] using hc1, fun _ => Or.inl ?_⟩
        simp [finallyStep_fields]
      | updateDraft i t c =>
        refine ⟨by simpa [createCount, finallyStep_fields] using hc1, fun h1 => Or.inl ?_⟩
        have h1' : createCount s = 1 := by simpa [createCount, finallyStep_fields] using h1
        rcases hc2 h1' with hx | ⟨t', c', hx⟩
        · simpa [finallyStep_fields] using hx
        · rw [hf] at hx; simp at hx
      | updateEntry i t c =>
        refine ⟨by simpa [createCount, finallyStep_fields] using hc1, fun h1 => Or.inl ?_⟩
        have h1' : createCount s = 1 := by simpa [createCount, finallyStep_fields] using h1
        rcases hc2 h1' with hx | ⟨t', c', hx⟩
        · simpa [finallyStep_fields] using hx
        · rw [hf] at hx; simp at hx
    · rename_i hok
      exact absurd rfl hok

/-- The effects preserve the lock discipline. -/
theorem runEffects_SaveInv (s : AutosaveState) (h : SaveInv s) : SaveInv (runEffects s) := by
  obtain ⟨hc, hf, hs, hcid, -, -, -, -, -, -⟩ := runEffects_fields s
  exact ⟨by rw [hs, hf]; exact h.1,
         fun t c hin => by rw [hf] at hin; rw [hcid]; exact h.2 t c hin⟩

/-- The effects preserve the at-most-one-creation invariant. -/
theorem runEffects_CreateInv (s : AutosaveState) (h : CreateInv s) :
    CreateInv (runEffects s) := by
  obtain ⟨hc, hf, hs, hcid, -, -, -, -, -, -⟩ := runEffects_fields s
  have hcount : createCount (runEffects s) = createCount s := by simp [createCount, hc]
  refine ⟨by rw [hcount]; exact h.1, fun h1 => ?_⟩
  rw [hcount] at h1
  rcases h.2 h1 with hx | ⟨t, c, hx⟩
  · exact Or.inl (by rw [hcid]; exact hx)
  · exact Or.inr ⟨t, c, by rw [hf]; exact hx⟩

/-- Every event preserves the lock discipline. -/
theorem astep_SaveInv (e : AEvent) (s : AutosaveState) (h : SaveInv s) :
    SaveInv (astep e s) := by
  apply runEffects_SaveInv
  cases e with
  | edit t c => exact h
  | setStatus st => exact h
  | load => exact h
  | timerFire =>
    simp only [handle]
    split
    · split
      · exact performSave_SaveInv _ _ _ h
      · exact h
    · exact h
  | save =>
    simp only [handle, saveNow]
    split
    · exact performSave_SaveInv _ _ _ h
    · exact h
  | complete ok rid => exact completeSave_SaveInv ok rid s h
  | followUpFire =>
    simp only [handle]
    split
    · exact performSave_SaveInv _ _ _ h
    · exact h

/-- Every save-successful event preserves the at-most-one-creation
invariant (given the lock discipline). -/
theorem astep_CreateInv (e : AEvent) (s : AutosaveState) (h1 : SaveInv s)
    (h2 : CreateInv s) (hg : goodEvent e = true) : CreateInv (astep e s) := by
  apply runEffects_CreateInv
  cases e with
  | edit t c => exact h2
  | setStatus st => exact h2
  | load => exact h2
  | timerFire =>
    simp only [handle]
    split
    · split
      · exact performSave_CreateInv _ _ _ h1 h2
      · exact h2
    · exact h2
  | save =>
    simp only [handle, saveNow]
    split
    · exact performSave_CreateInv _ _ _ h1 h2
    · exact h2
  | complete ok rid =>
    have hok : ok = true ∧ rid ≠ 0 := by
      simpa [goodEvent] using hg
    obtain ⟨rfl, hr⟩ := hok
    exact completeSave_CreateInv rid s h2 hr
  | followUpFire =>
    simp only [handle]
    split
    · exact performSave_CreateInv _ _ _ h1 h2
    · exact h2

/-- Both invariants hold along every trace whose completions all succeed
with truthy ids. -/
theorem runAutosave_invs (tr : List AEvent) (s : AutosaveState)
    (h1 : SaveInv s) (h2 : CreateInv s) (hg : tr.all goodEvent = true) :
    SaveInv (runAutosave tr s) ∧ CreateInv (runAutosave tr s) := by
  induction tr generalizing s with
  | nil => exact ⟨h1, h2⟩
  | cons e es ih =>
    rw [List.all_cons, Bool.and_eq_true] at hg
    exact ih (astep e s) (astep_SaveInv e s h1) (astep_CreateInv e s h1 h2 hg.1) hg.2

/-- The lock discipline holds along every trace. -/
theorem runAutosave_SaveInv (tr : List AEvent) (s : AutosaveState) (h : SaveInv s) :
    SaveInv (runAutosave tr s) := by
  induction tr generalizing s with
  | nil => exact h
  | cons e es ih => exact ih (astep e s) (astep_SaveInv e s h)

/-- Every reachable editor state obeys the lock discipline. -/
theorem reachable_SaveInv (s : AutosaveState) (h : ReachableAutosave s) : SaveInv s := by
  obtain ⟨t, c, st, cid, en, tr, rfl⟩ := h
  exact runAutosave_SaveInv tr _ (by simp [initAutosave, SaveInv])

/-- A save issued while an id is adopted leaves the id alone and targets
it. -/
theorem performSave_adopted (t c : String) (s : AutosaveState) (i : Nat)
    (hc : s.currentId = some i) :
    (performSave t c s).currentId = some i ∧
    ∀ cl ∈ (performSave t c s).calls, cl ∈ s.calls ∨ cl.target = some i := by
  unfold performSave
  split
  · exact ⟨hc, fun cl hm => Or.inl hm⟩
  · cases hst : s.status <;> simp only [hst, hc, saveCallFor] <;>
      refine ⟨by simp [hc], fun cl hm => ?_⟩ <;>
      rcases List.mem_append.mp hm with hm | hm
    · exact Or.inl hm
    · simp only [List.mem_singleton] at hm
      subst hm; exact Or.inr rfl
    · exact Or.inl hm
    · simp only [List.mem_singleton] at hm
      subst hm; exact Or.inr rfl

/-- Completing a save while an id is adopted cannot adopt another id (the
in-flight call cannot be a creation) and issues no call. -/
theorem completeSave_adopted (ok : Bool) (rid : Nat) (s : AutosaveState) (i : Nat)
    (hS : SaveInv s) (hc : s.currentId = some i) :
    (completeSave ok rid s).currentId = some i ∧
    (completeSave ok rid s).calls = s.calls := by
  unfold completeSave
  split
  · exact ⟨hc, rfl⟩
  · rename_i call hf
    split
    · cases call with
      | createDraft t c =>
        exfalso
        have hnone := hS.2 t c hf
        rw [hc] at hnone
        cases hnone
      | updateDraft j t c =>
        exact ⟨by simp [finallyStep_fields, hc], by simp [finallyStep_fields]⟩
      | updateEntry j t c =>
        exact ⟨by simp [finallyStep_fields, hc], by simp [finallyStep_fields]⟩
    · exact ⟨by simp [finallyStep_fields, hc], by simp [finallyStep_fields]⟩

/-- Once an id is adopted, every event preserves it and every newly issued
call targets it. -/
theorem astep_adopted (e : AEvent) (s : AutosaveState) (i : Nat) (hS : SaveInv s)
    (hc : s.currentId = some i) :
    (astep e s).currentId = some i ∧
    ∀ cl ∈ (astep e s).calls, cl ∈ s.calls ∨ cl.target = some i := by
  obtain ⟨hcalls, -, -, hcid, -, -, -, -, -, -⟩ := runEffects_fields (handle e s)
  have key : (handle e s).currentId = some i ∧
      ∀ cl ∈ (handle e s).calls, cl ∈ s.calls ∨ cl.target = some i := by
    cases e with
    | edit t c => exact ⟨hc, fun cl hm => Or.inl hm⟩
    | setStatus st => exact ⟨hc, fun cl hm => Or.inl hm⟩
    | load => exact ⟨hc, fun cl hm => Or.inl hm⟩
    | timerFire =>
      simp only [handle]
      split
      · split
        · exact performSave_adopted _ _ _ i hc
        · exact ⟨hc, fun cl hm => Or.inl hm⟩
      · exact ⟨hc, fun cl hm => Or.inl hm⟩
    | save =>
      simp only [handle, saveNow]
      split
      · exact performSave_adopted _ _ _ i hc
      · exact ⟨hc, fun cl hm => Or.inl hm⟩
    | complete ok rid =>
      simp only [handle]
      obtain ⟨h1, h2⟩ := completeSave_adopted ok rid s i hS hc
      exact ⟨h1, fun cl hm => Or.inl (h2 ▸ hm)⟩
    | followUpFire =>
      simp only [handle]
      split
      · exact performSave_adopted _ _ _ i hc
      · exact ⟨hc, fun cl hm => Or.inl hm⟩
  refine ⟨?_, ?_⟩
  · show (runEffects (handle e s)).currentId = some i
    rw [hcid]; exact key.1
  · intro cl hm
    rw [show (astep e s).calls = (handle e s).calls from hcalls] at hm
    exact key.2 cl hm

/-- C4 amended: new-document single creation under successful saves.  For a
new document (id absent at editor open), along any event trace whose save
completions all succeed with a server-assigned id, at most one creation call
is issued; and unconditionally, once an id is adopted it is never lost and
every call issued from a reachable state with an adopted id targets that id
as an update, never a second creation.  (A failed creation leaves the id
absent, so a later autosave can issue another creation call — see the
counterexample.) -/
theorem new_document_single_creation (t c : String) (en : Bool) (tr : List AEvent)
    (hgood : tr.all goodEvent = true) :
    createCount (runAutosave tr (initAutosave t c .draft none en)) ≤ 1 ∧
    (∀ s e i, ReachableAutosave s → s.currentId = some i →
      (astep e s).currentId = some i ∧
      ∀ cl ∈ (astep e s).calls, cl ∈ s.calls ∨ cl.target = some i) := by
  constructor
  · have h := runAutosave_invs tr (initAutosave t c .draft none en)
      (by simp [initAutosave, SaveInv])
      (by constructor <;> simp [initAutosave, createCount]) hgood
    exact h.2.1
  · intro s e i hre hci
    exact astep_adopted e s i (reachable_SaveInv s hre) hci

/-- C4 witness: a trace that loads, edits, creates once (the server assigns
id 7), edits again and saves again — a single creation, with the second save
an update to id 7. -/
theorem new_document_single_creation_witness :
    ([AEvent.load, .edit "a" "", .timerFire, .complete true 7, .edit "b" "",
       .timerFire].all goodEvent = true) ∧
    (createCount (runAutosave [AEvent.load, .edit "a" "", .timerFire, .complete true 7,
        .edit "b" "", .timerFire] (initAutosave "" "" .draft none true)) ≤ 1 ∧
     (∀ s e i, ReachableAutosave s → s.currentId = some i →
        (astep e s).currentId = some i ∧
        ∀ cl ∈ (astep e s).calls, cl ∈ s.calls ∨ cl.target = some i)) :=
  ⟨by decide,
   new_document_single_creation "" "" true
     [AEvent.load, .edit "a" "", .timerFire, .complete true 7, .edit "b" "", .timerFire]
     (by decide)⟩

/-- C4 counterexample: when the single creation call fails, the follow-up
save scheduled by the `finally` block issues a second creation call — two
creation calls for one new document even though no save has succeeded (the
persisted snapshot is still the initial one). -/
theorem failed_create_repeats_creation :
    createCount (runAutosave [AEvent.load, .edit "a" "", .timerFire, .complete false 0,
      .followUpFire] (initAutosave "" "" .draft none true)) = 2 ∧
    (runAutosave [AEvent.load, .edit "a" "", .timerFire, .complete false 0, .followUpFire]
      (initAutosave "" "" .draft none true)).calls =
      [.createDraft "a" "", .createDraft "a" ""] ∧
    (runAutosave [AEvent.load, .edit "a" "", .timerFire, .complete false 0, .followUpFire]
      (initAutosave "" "" .draft none true)).lastSaved = some ⟨"", ""⟩ :=
  ⟨rfl, rfl, rfl⟩

/-- The debounce effect never leaves an armed timer on a published entry:
its cleanup clears the timer and its body returns before arming one. -/
theorem effectDebounce_published_timer (x : AutosaveState) (h : x.status = .published) :
    (effectDebounce x).timerPending = false := by
  unfold effectDebounce debounceBody
  repeat' split
  all_goals simp_all

/-- After the effects run, a published entry has no armed timer. -/
theorem runEffects_published_timer (x : AutosaveState) (h : x.status = .published) :
    (runEffects x).timerPending = false := by
  obtain ⟨-, -, -, -, h1, -, -, -, -, -, -, -, -⟩ := effectInitSnapshot_fields x
  obtain ⟨-, -, -, -, h2, -, -, -, -, -, -, -, -⟩ :=
    effectPublishedStatus_fields (effectInitSnapshot x)
  exact effectDebounce_published_timer _ (by rw [h2, h1, h])

/-- After any step, a published entry has no armed timer. -/
theorem astep_published_timer (e : AEvent) (s : AutosaveState)
    (h : (astep e s).status = .published) : (astep e s).timerPending = false := by
  obtain ⟨-, -, -, -, hst, -, -, -, -, -⟩ := runEffects_fields (handle e s)
  exact runEffects_published_timer (handle e s) (by rw [← hst]; exact h)

/-- Along any trace, a state whose entry is published has no armed timer. -/
theorem runAutosave_published_timer (tr : List AEvent) (s0 : AutosaveState)
    (h0 : s0.status = .published → s0.timerPending = false) :
    (runAutosave tr s0).status = .published →
      (runAutosave tr s0).timerPending = false := by
  induction tr generalizing s0 with
  | nil => exact h0
  | cons e es ih => exact ih (astep e s0) (astep_published_timer e s0)

/-- Every reachable published editor state has no armed timer. -/
theorem reachable_published_timer (s : AutosaveState) (h : ReachableAutosave s)
    (hp : s.status = .published) : s.timerPending = false := by
  obtain ⟨t, c, st, cid, en, tr, rfl⟩ := h
  exact runAutosave_published_timer tr _ (fun _ => rfl) hp

/-- C8 amended: published documents are never timer-saved.  In every
reachable editor state whose entry is published the debounce timer is
disarmed, so the timer-elapse event issues no save call and leaves no call
in flight; an explicit save on a dirty, unlocked published state does issue
the single update call.  (Explicit save is not the only `unsaved → saving`
transition for a published document: the follow-up save scheduled in
`performSave`'s `finally` block also fires without one — see the
counterexample.) -/
theorem published_timer_never_saves (s : AutosaveState) (hre : ReachableAutosave s)
    (hpub : s.status = .published) :
    (astep .timerFire s).calls = s.calls ∧ (astep .timerFire s).inFlight = s.inFlight ∧
    (isDirty s = true → s.isSaving = false →
      (astep .save s).calls =
        s.calls ++ (saveCallFor .published s.currentId s.title s.content).toList) := by
  have htimer : s.timerPending = false := reachable_published_timer s hre hpub
  obtain ⟨hc1, hf1, -, -, -, -, -, -, -, -⟩ := runEffects_fields (handle .timerFire s)
  have hh : handle .timerFire s = s := by simp [handle, htimer]
  refine ⟨?_, ?_, ?_⟩
  · show (runEffects (handle .timerFire s)).calls = s.calls
    rw [hc1, hh]
  · show (runEffects (handle .timerFire s)).inFlight = s.inFlight
    rw [hf1, hh]
  · intro hd hl
    obtain ⟨hc2, -, -, -, -, -, -, -, -, -⟩ := runEffects_fields (handle .save s)
    show (runEffects (handle .save s)).calls = _
    rw [hc2]
    cases hcid : s.currentId with
    | none =>
      simp [handle, saveNow, hd, performSave, clearPendingTimeout, hl, hpub, hcid,
            saveCallFor, finallyStep_fields]
    | some i =>
      simp [handle, saveNow, hd, performSave, clearPendingTimeout, hl, hpub, hcid,
            saveCallFor]

/-- C8 witness: a loaded, edited (hence dirty) published entry with id 5:
the timer event issues nothing, the explicit save issues the single update
call. -/
theorem published_timer_never_saves_witness :
    ReachableAutosave (runAutosave [AEvent.load, .edit "x" "c"]
      (initAutosave "t" "c" .published (some 5) true)) ∧
    (runAutosave [AEvent.load, .edit "x" "c"]
      (initAutosave "t" "c" .published (some 5) true)).status = .published ∧
    ((astep .timerFire (runAutosave [AEvent.load, .edit "x" "c"]
        (initAutosave "t" "c" .published (some 5) true))).calls =
      (runAutosave [AEvent.load, .edit "x" "c"]
        (initAutosave "t" "c" .published (some 5) true)).calls ∧
     (astep .timerFire (runAutosave [AEvent.load, .edit "x" "c"]
        (initAutosave "t" "c" .published (some 5) true))).inFlight =
      (runAutosave [AEvent.load, .edit "x" "c"]
        (initAutosave "t" "c" .published (some 5) true)).inFlight ∧
     (isDirty (runAutosave [AEvent.load, .edit "x" "c"]
        (initAutosave "t" "c" .published (some 5) true)) = true →
      (runAutosave [AEvent.load, .edit "x" "c"]
        (initAutosave "t" "c" .published (some 5) true)).isSaving = false →
      (astep .save (runAutosave [AEvent.load, .edit "x" "c"]
        (initAutosave "t" "c" .published (some 5) true))).calls =
        (runAutosave [AEvent.load, .edit "x" "c"]
          (initAutosave "t" "c" .published (some 5) true)).calls ++
        (saveCallFor .published
          (runAutosave [AEvent.load, .edit "x" "c"]
            (initAutosave "t" "c" .published (some 5) true)).currentId
          (runAutosave [AEvent.load, .edit "x" "c"]
            (initAutosave "t" "c" .published (some 5) true)).title
          (runAutosave [AEvent.load, .edit "x" "c"]
            (initAutosave "t" "c" .published (some 5) true)).content).toList)) :=
  ⟨⟨"t", "c", .published, some 5, true, [AEvent.load, .edit "x" "c"], rfl⟩, rfl,
   published_timer_never_saves _
     ⟨"t", "c", .published, some 5, true, [AEvent.load, .edit "x" "c"], rfl⟩ rfl⟩

/-- C8 counterexample: an explicit manual save is not the only
`unsaved → saving` transition of a published document.  A draft is edited to
"a", the timer fires its creation call, the user edits to "b" while the save
is in flight (buffering the edit), the entry becomes published, and the
creation completes (adopting id 7) with the buffered edit differing from the
persisted snapshot — scheduling the follow-up save.  The reached state is
published and `unsaved` with no save in flight; the follow-up event (the
`finally` block's `setTimeout`, not an explicit save) then takes the lock,
enters `saving` and issues `updateEntry 7 "b" ""` on the published
document. -/
theorem followup_saves_published_without_explicit_save :
    (runAutosave [AEvent.load, .edit "a" "", .timerFire, .edit "b" "",
      .setStatus .published, .complete true 7]
      (initAutosave "" "" .draft none true)).status = .published ∧
    (runAutosave [AEvent.load, .edit "a" "", .timerFire, .edit "b" "",
      .setStatus .published, .complete true 7]
      (initAutosave "" "" .draft none true)).saveStatus = .unsaved ∧
    (runAutosave [AEvent.load, .edit "a" "", .timerFire, .edit "b" "",
      .setStatus .published, .complete true 7]
      (initAutosave "" "" .draft none true)).isSaving = false ∧
    (runAutosave [AEvent.load, .edit "a" "", .timerFire, .edit "b" "",
      .setStatus .published, .complete true 7]
      (initAutosave "" "" .draft none true)).followUp = some ⟨"b", ""⟩ ∧
    (handle .followUpFire (runAutosave [AEvent.load, .edit "a" "", .timerFire,
      .edit "b" "", .setStatus .published, .complete true 7]
      (initAutosave "" "" .draft none true))).saveStatus = .saving ∧
    (handle .followUpFire (runAutosave [AEvent.load, .edit "a" "", .timerFire,
      .edit "b" "", .setStatus .published, .complete true 7]
      (initAutosave "" "" .draft none true))).isSaving = true ∧
    (astep .followUpFire (runAutosave [AEvent.load, .edit "a" "", .timerFire,
      .edit "b" "", .setStatus .published, .complete true 7]
      (initAutosave "" "" .draft none true))).calls =
      [.createDraft "a" "", .updateEntry 7 "b" ""] :=
  ⟨rfl, rfl, rfl, rfl, rfl, rfl, rfl⟩

/-- Before the initial data is loaded, the effects only clear the timer. -/
theorem runEffects_uninit (x : AutosaveState) (h : x.isInitialized = false) :
    runEffects x = { x with timerPending := false } := by
  unfold runEffects effectDebounce debounceBody effectPublishedStatus effectInitSnapshot
  simp [h]

/-- Before the initial data is loaded, every non-load event leaves the
snapshot unset, the call log empty, the timer disarmed, the lock free and
nothing in flight. -/
theorem astep_uninit (e : AEvent) (s : AutosaveState) (he : isLoad e = false)
    (h1 : s.isInitialized = false) (h2 : s.lastSaved = none) (h3 : s.calls = [])
    (h4 : s.timerPending = false) (h5 : s.isSaving = false) (h6 : s.inFlight = none)
    (h7 : s.followUp = none) :
    (astep e s).isInitialized = false ∧ (astep e s).lastSaved = none ∧
    (astep e s).calls = [] ∧ (astep e s).timerPending = false ∧
    (astep e s).isSaving = false ∧ (astep e s).inFlight = none ∧
    (astep e s).followUp = none := by
  have hmid : (handle e s).isInitialized = false ∧ (handle e s).lastSaved = none ∧
      (handle e s).calls = [] ∧ (handle e s).isSaving = false ∧
      (handle e s).inFlight = none ∧ (handle e s).followUp = none := by
    cases e with
    | edit t c => exact ⟨h1, h2, h3, h5, h6, h7⟩
    | setStatus st => exact ⟨h1, h2, h3, h5, h6, h7⟩
    | load => simp [isLoad] at he
    | timerFire =>
      simp only [handle, h4, Bool.false_eq_true, if_false]
      exact ⟨h1, h2, h3, h5, h6, h7⟩
    | save =>
      have hd : isDirty s = false := by simp [isDirty, h2]
      simp only [handle, saveNow, hd, Bool.false_eq_true, if_false]
      exact ⟨h1, h2, h3, h5, h6, h7⟩
    | complete ok rid =>
      simp only [handle, completeSave, h6]
      exact ⟨h1, h2, h3, h5, trivial, h7⟩
    | followUpFire =>
      simp only [handle, h7]
      exact ⟨h1, h2, h3, h5, h6, trivial⟩
  have hre : astep e s = { handle e s with timerPending := false } :=
    runEffects_uninit (handle e s) hmid.1
  rw [hre]
  exact ⟨hmid.1, hmid.2.1, hmid.2.2.1, rfl, hmid.2.2.2.1, hmid.2.2.2.2.1,
         hmid.2.2.2.2.2⟩

/-- Before the initial data is loaded, whole traces preserve the
uninitialized state. -/
theorem runAutosave_uninit (tr : List AEvent) (s : AutosaveState)
    (hall : tr.all (fun e => !isLoad e) = true)
    (h1 : s.isInitialized = false) (h2 : s.lastSaved = none) (h3 : s.calls = [])
    (h4 : s.timerPending = false) (h5 : s.isSaving = false) (h6 : s.inFlight = none)
    (h7 : s.followUp = none) :
    (runAutosave tr s).isInitialized = false ∧ (runAutosave tr s).lastSaved = none ∧
    (runAutosave tr s).calls = [] ∧ (runAutosave tr s).timerPending = false ∧
    (runAutosave tr s).isSaving = false ∧ (runAutosave tr s).inFlight = none ∧
    (runAutosave tr s).followUp = none := by
  induction tr generalizing s with
  | nil => exact ⟨h1, h2, h3, h4, h5, h6, h7⟩
  | cons e es ih =>
    rw [List.all_cons, Bool.and_eq_true] at hall
    have he : isLoad e = false := by
      rcases hall.1 with h
      cases hx : isLoad e
      · rfl
      · rw [hx] at h; cases h
    obtain ⟨g1, g2, g3, g4, g5, g6, g7⟩ := astep_uninit e s he h1 h2 h3 h4 h5 h6 h7
    exact ih (astep e s) hall.2 g1 g2 g3 g4 g5 g6 g7

/-- The load event takes the snapshot from the current `{title, content}`
when it is still unset, and issues no save call. -/
theorem astep_load_uninit (s : AutosaveState) (h2 : s.lastSaved = none) :
    (astep .load s).lastSaved = some ⟨s.title, s.content⟩ ∧
    (astep .load s).calls = s.calls := by
  constructor
  · show (runEffects (handle .load s)).lastSaved = some ⟨s.title, s.content⟩
    have hinit : effectInitSnapshot (handle .load s)
        = { s with isInitialized := true, lastSaved := some ⟨s.title, s.content⟩ } := by
      simp [effectInitSnapshot, handle, h2]
    unfold runEffects
    rw [hinit]
    obtain ⟨-, -, -, -, -, -, -, -, -, -, -, -, hps⟩ :=
      effectPublishedStatus_fields
        { s with isInitialized := true, lastSaved := some ⟨s.title, s.content⟩ }
    obtain ⟨-, -, -, -, -, -, -, -, -, -, hdb⟩ :=
      effectDebounce_fields (effectPublishedStatus
        { s with isInitialized := true, lastSaved := some ⟨s.title, s.content⟩ })
    rw [hdb, hps]
  · obtain ⟨hc, -, -, -, -, -, -, -, -, -⟩ := runEffects_fields (handle .load s)
    exact hc

/-- C10: no save before initialization.  For every editor session and every
event trace that does not contain the initial-data load, no save call is
ever issued, the document is never dirty and the snapshot is still unset;
and the load event then takes the snapshot exactly once, from the current
`{title, content}`, still without issuing any save call. -/
theorem no_save_before_init (t c : String) (st : EntryStatus) (cid : Option Nat)
    (en : Bool) (tr : List AEvent) (hall : tr.all (fun e => !isLoad e) = true) :
    (runAutosave tr (initAutosave t c st cid en)).calls = [] ∧
    isDirty (runAutosave tr (initAutosave t c st cid en)) = false ∧
    (runAutosave tr (initAutosave t c st cid en)).lastSaved = none ∧
    (astep .load (runAutosave tr (initAutosave t c st cid en))).lastSaved =
      some ⟨(runAutosave tr (initAutosave t c st cid en)).title,
            (runAutosave tr (initAutosave t c st cid en)).content⟩ ∧
    (astep .load (runAutosave tr (initAutosave t c st cid en))).calls = [] := by
  obtain ⟨g1, g2, g3, g4, g5, g6, g7⟩ :=
    runAutosave_uninit tr (initAutosave t c st cid en) hall rfl rfl rfl rfl rfl rfl rfl
  obtain ⟨hL1, hL2⟩ := astep_load_uninit (runAutosave tr (initAutosave t c st cid en)) g2
  exact ⟨g3, by simp [isDirty, g2], g2, hL1, by rw [hL2]; exact g3⟩

/-- C10 witness: edits, a timer event and an explicit save before the load
issue nothing; the load then takes the snapshot from the edited values. -/
theorem no_save_before_init_witness :
    ([AEvent.edit "x" "y", .timerFire, .save].all (fun e => !isLoad e) = true) ∧
    ((runAutosave [AEvent.edit "x" "y", .timerFire, .save]
        (initAutosave "a" "b" .draft none true)).calls = [] ∧
     isDirty (runAutosave [AEvent.edit "x" "y", .timerFire, .save]
        (initAutosave "a" "b" .draft none true)) = false ∧
     (runAutosave [AEvent.edit "x" "y", .timerFire, .save]
        (initAutosave "a" "b" .draft none true)).lastSaved = none ∧
     (astep .load (runAutosave [AEvent.edit "x" "y", .timerFire, .save]
        (initAutosave "a" "b" .draft none true))).lastSaved =
       some ⟨(runAutosave [AEvent.edit "x" "y", .timerFire, .save]
               (initAutosave "a" "b" .draft none true)).title,
             (runAutosave [AEvent.edit "x" "y", .timerFire, .save]
               (initAutosave "a" "b" .draft none true)).content⟩ ∧
     (astep .load (runAutosave [AEvent.edit "x" "y", .timerFire, .save]
        (initAutosave "a" "b" .draft none true))).calls = []) :=
  ⟨by decide,
   no_save_before_init "a" "b" .draft none true
     [AEvent.edit "x" "y", .timerFire, .save] (by decide)⟩

/-- An edit that leaves the document differing from the snapshot: the
debounce effect marks `unsaved`, overwrites `pendingSaveRef` with the new
values and (re)arms the timer. -/
theorem astep_edit_dirty (s : AutosaveState) (snap : Snapshot) (t c : String)
    (hdraft : s.status = .draft) (hen : s.enabled = true) (hinit : s.isInitialized = true)
    (hsnap : s.lastSaved = some snap)
    (hne : (t != snap.title || c != snap.content) = true) :
    astep (.edit t c) s =
      { s with title := t, content := c, saveStatus := .unsaved,
               pendingSave := some ⟨t, c⟩, timerPending := true } := by
  show runEffects (handle (.edit t c) s) = _
  unfold runEffects effectInitSnapshot effectPublishedStatus effectDebounce debounceBody
  simp [handle, hdraft, hen, hinit, hsnap, isDirty, hne]

/-- Firing an armed timer with buffered values and a free lock issues
exactly the one save call determined by the buffered values and the
identity check at call time. -/
theorem astep_timerFire_issues (s : AutosaveState) (p : Snapshot)
    (htimer : s.timerPending = true) (hpend : s.pendingSave = some p)
    (hlock : s.isSaving = false) :
    (astep .timerFire s).calls =
      s.calls ++ (saveCallFor s.status s.currentId p.title p.content).toList := by
  obtain ⟨hc, -, -, -, -, -, -, -, -, -⟩ := runEffects_fields (handle .timerFire s)
  show (runEffects (handle .timerFire s)).calls = _
  rw [hc]
  simp only [handle, htimer, hpend, if_true]
  cases hcall : saveCallFor s.status s.currentId p.title p.content with
  | none =>
    simp [performSave, clearPendingTimeout, hlock, hcall, finallyStep_fields]
  | some call =>
    simp [performSave, clearPendingTimeout, hlock, hcall]

/-- C5 amended: autosave debounce coalescing.  From any initialized,
unlocked draft state, two edits in one debounce window followed by the
timer elapsing issue exactly one save call, carrying the values of the
latest edit (provided the latest edit differs from the persisted snapshot
— an edit that restores the snapshot instead cancels the pending debounce,
see the counterexample); the latest edit overwrote the single buffered
pending-save value and armed the timer. -/
theorem debounce_coalesces (s : AutosaveState) (snap : Snapshot) (t1 c1 t2 c2 : String)
    (hdraft : s.status = .draft) (hen : s.enabled = true) (hinit : s.isInitialized = true)
    (hlock : s.isSaving = false) (hsnap : s.lastSaved = some snap)
    (hne : (t2 != snap.title || c2 != snap.content) = true) :
    (astep (.edit t2 c2) (astep (.edit t1 c1) s)).pendingSave = some ⟨t2, c2⟩ ∧
    (astep (.edit t2 c2) (astep (.edit t1 c1) s)).timerPending = true ∧
    (astep .timerFire (astep (.edit t2 c2) (astep (.edit t1 c1) s))).calls =
      s.calls ++ (saveCallFor .draft s.currentId t2 c2).toList := by
  obtain ⟨d1, -, d3, d4, d5, d6, d7, -, -, -⟩ := runEffects_fields (handle (.edit t1 c1) s)
  have hst1 : (astep (.edit t1 c1) s).status = .draft := d5.trans hdraft
  have hen1 : (astep (.edit t1 c1) s).enabled = true := d6.trans hen
  have hinit1 : (astep (.edit t1 c1) s).isInitialized = true := d7.trans hinit
  have hlock1 : (astep (.edit t1 c1) s).isSaving = false := d3.trans hlock
  have hcalls1 : (astep (.edit t1 c1) s).calls = s.calls := d1
  have hcid1 : (astep (.edit t1 c1) s).currentId = s.currentId := d4
  have hsnap1 : (astep (.edit t1 c1) s).lastSaved = some snap :=
    runEffects_lastSaved_some (handle (.edit t1 c1) s) snap hsnap
  have h2 := astep_edit_dirty (astep (.edit t1 c1) s) snap t2 c2 hst1 hen1 hinit1
    hsnap1 hne
  have hp2 : (astep (.edit t2 c2) (astep (.edit t1 c1) s)).pendingSave = some ⟨t2, c2⟩ := by
    rw [h2]
  have ht2 : (astep (.edit t2 c2) (astep (.edit t1 c1) s)).timerPending = true := by
    rw [h2]
  have hl2 : (astep (.edit t2 c2) (astep (.edit t1 c1) s)).isSaving = false := by
    rw [h2]; exact hlock1
  have hst2 : (astep (.edit t2 c2) (astep (.edit t1 c1) s)).status = .draft := by
    rw [h2]; exact hst1
  have hcid2 : (astep (.edit t2 c2) (astep (.edit t1 c1) s)).currentId = s.currentId := by
    rw [h2]; exact hcid1
  have hcalls2 : (astep (.edit t2 c2) (astep (.edit t1 c1) s)).calls = s.calls := by
    rw [h2]; exact hcalls1
  refine ⟨hp2, ht2, ?_⟩
  rw [astep_timerFire_issues _ ⟨t2, c2⟩ ht2 hp2 hl2, hcalls2, hst2, hcid2]

/-- C5 witness: the concrete scenario of the specification — a freshly
loaded empty draft, typing "Hi" then "Hi there" within one debounce window,
then the timer elapses: exactly one creation call fires, carrying
`{title := "Hi there", content := ""}`. -/
theorem debounce_coalesces_witness :
    (runAutosave [AEvent.load] (initAutosave "" "" .draft none true)).status = .draft ∧
    (runAutosave [AEvent.load] (initAutosave "" "" .draft none true)).enabled = true ∧
    (runAutosave [AEvent.load] (initAutosave "" "" .draft none true)).isInitialized
      = true ∧
    (runAutosave [AEvent.load] (initAutosave "" "" .draft none true)).isSaving = false ∧
    (runAutosave [AEvent.load] (initAutosave "" "" .draft none true)).lastSaved =
      some ⟨"", ""⟩ ∧
    (("Hi there" != (Snapshot.mk "" "").title ||
      "" != (Snapshot.mk "" "").content) = true) ∧
    ((astep (.edit "Hi there" "") (astep (.edit "Hi" "")
        (runAutosave [AEvent.load] (initAutosave "" "" .draft none true)))).pendingSave
       = some ⟨"Hi there", ""⟩ ∧
     (astep (.edit "Hi there" "") (astep (.edit "Hi" "")
        (runAutosave [AEvent.load] (initAutosave "" "" .draft none true)))).timerPending
       = true ∧
     (astep .timerFire (astep (.edit "Hi there" "") (astep (.edit "Hi" "")
        (runAutosave [AEvent.load] (initAutosave "" "" .draft none true))))).calls =
       (runAutosave [AEvent.load] (initAutosave "" "" .draft none true)).calls ++
       (saveCallFor .draft
         (runAutosave [AEvent.load] (initAutosave "" "" .draft none true)).currentId
         "Hi there" "").toList) :=
  ⟨rfl, rfl, rfl, rfl, rfl, by decide,
   debounce_coalesces (runAutosave [AEvent.load] (initAutosave "" "" .draft none true))
     ⟨"", ""⟩ "Hi" "" "Hi there" "" rfl rfl rfl rfl rfl (by decide)⟩

/-- C5 counterexample: an edit that restores the last-persisted snapshot
does not restart the debounce timer and does not overwrite the pending
value — it cancels the pending autosave (the timer is disarmed while the
stale pending value remains buffered), and the subsequent timer event
issues no save call. -/
theorem revert_edit_cancels_debounce :
    (runAutosave [AEvent.load, .edit "H" ""]
      (initAutosave "" "" .draft none true)).timerPending = true ∧
    (runAutosave [AEvent.load, .edit "H" ""]
      (initAutosave "" "" .draft none true)).pendingSave = some ⟨"H", ""⟩ ∧
    (runAutosave [AEvent.load, .edit "H" "", .edit "" ""]
      (initAutosave "" "" .draft none true)).timerPending = false ∧
    (runAutosave [AEvent.load, .edit "H" "", .edit "" ""]
      (initAutosave "" "" .draft none true)).pendingSave = some ⟨"H", ""⟩ ∧
    (runAutosave [AEvent.load, .edit "H" "", .edit "" "", .timerFire]
      (initAutosave "" "" .draft none true)).calls = [] :=
  ⟨rfl, rfl, rfl, rfl, rfl⟩

end MyJournal
